import Mathlib

/-!
# Verification of the image-analysis core (`api/index.py`)

Shallow embedding of the analysis pipeline: metadata extraction,
generator-signature detection, perceptual metrics, and score/label
aggregation.  Python floats are modelled as exact rationals (`ℚ`); the
two skimage statistics whose computation is transcendental
(`np.std(laplace(gray))` and `shannon_entropy(gray)`) are carried as
abstract rational inputs of the image model, and only the scaling and
clamping the repository applies to them is modelled.  Python strings are
Lean `String`s and `str.lower()` is `strLower` (character-wise ASCII case
folding, which covers every keyword in the signature table).
-/

namespace DeepfakeProto

/-- Heterogeneous metadata value, the tagged-variant tree traversed by
`detect_generator_reasons`: string/int leaves, the Python `None` leaf,
ordered-key mappings and sequences. -/
inductive MetaVal where
  | str : String → MetaVal
  | int : Int → MetaVal
  | pynone : MetaVal
  | dict : List (String × MetaVal) → MetaVal
  | list : List MetaVal → MetaVal

/-- Python truthiness (`bool(v)`) on a metadata value: empty strings,
zero, `None`, empty mappings and empty sequences are falsy. -/
def pyTruthy : MetaVal → Bool
  | .str s => !s.isEmpty
  | .int n => n != 0
  | .pynone => false
  | .dict kvs => !kvs.isEmpty
  | .list xs => !xs.isEmpty

/-- `metadata.get(k)` on a mapping value (first binding wins, as in a
Python dict built with distinct keys); `none` on a non-mapping. -/
def dget (m : MetaVal) (k : String) : Option MetaVal :=
  match m with
  | .dict kvs => (kvs.find? fun p => p.1 == k).map Prod.snd
  | _ => none

/-- `bool(metadata.get(k))`: `bool(None)` is `false`. -/
def truthyGet (m : MetaVal) (k : String) : Bool :=
  match dget m k with
  | Option.none => false
  | Option.some v => pyTruthy v

/-- the Python `str.lower()` method (ASCII case folding, character-wise; defined
structurally over the character list so it evaluates in the kernel). -/
def strLower (s : String) : String := ⟨s.data.map Char.toLower⟩

/-- Substring test on character lists: `needle` occurs contiguously in
`hay` (the semantics of the Python expression `kw in t`). -/
def containsSub (needle : List Char) : List Char → Bool
  | [] => needle.isEmpty
  | c :: rest => needle.isPrefixOf (c :: rest) || containsSub needle rest

/-- `kw in t` for strings. -/
def containsSubstr (needle hay : String) : Bool :=
  containsSub needle.toList hay.toList

/-- The fixed AI-generator signature table (`GENERATOR_KEYWORDS`). -/
def GENERATOR_KEYWORDS : List String :=
  ["stable diffusion", "stability.ai", "automatic1111", "invokeai", "comfyui",
   "midjourney", "dall-e", "dall·e", "openai", "novelai", "runway", "firefly",
   "leonardo", "sdxl", "genai", "ai generated", "clipdrop", "ideogram", "flux.1"]

/-- The reason string emitted for one detected signature. -/
def genReason (kw : String) : String := "Generator tag detected: " ++ kw

mutual

/-- The `collect` closure of `detect_generator_reasons`: flatten keys and
values of the metadata tree into lowercase string tokens.  Dict keys are
lowered and emitted before their values; leaves are `str(obj).lower()`. -/
def collectTexts : MetaVal → List String
  | .str s => [strLower s]
  | .int n => [strLower (toString n)]
  | .pynone => ["none"]
  | .dict kvs => collectKVs kvs
  | .list xs => collectList xs

/-- Token collection over the bindings of a mapping. -/
def collectKVs : List (String × MetaVal) → List String
  | [] => []
  | kv :: rest => strLower kv.1 :: (collectTexts kv.2 ++ collectKVs rest)

/-- Token collection over the elements of a sequence. -/
def collectList : List MetaVal → List String
  | [] => []
  | x :: rest => collectTexts x ++ collectList rest

end

/-- Does keyword `kw` occur as a substring of at least one token? -/
def kwMatches (texts : List String) (kw : String) : Bool :=
  texts.any fun t => containsSubstr kw t

/-- `detect_generator_reasons`: scan the flattened lowercase tokens and,
looping over the fixed keyword table, append one reason per matching
keyword. -/
def detect_generator_reasons (metadata : MetaVal) : List String :=
  let texts := collectTexts metadata
  GENERATOR_KEYWORDS.foldl
    (fun reasons kw =>
      if kwMatches texts kw then reasons ++ [genReason kw] else reasons)
    []

/-- A value of `img.info`: either an opaque byte payload (modelled by its
length) or an ordinary metadata value. -/
inductive InfoVal where
  | bytes : Nat → InfoVal
  | val : MetaVal → InfoVal

/-- The downsampled grayscale pixel grid the metrics read, pixel values
in `[0,1]` as rationals. -/
structure GrayGrid where
  H : Nat
  W : Nat
  px : Nat → Nat → ℚ

/-- The decoded image as the analysis core sees it.  `exifRaw` is the
result of the `piexif.load` attempt after tag-name resolution and
best-effort byte decoding: `none` when parsing raised, otherwise the
IFD-name-indexed groups of readable (tag name, value) entries.
`noiseStd` and `entropyRaw` are the float statistics returned by
`np.std(laplace(gray))` and `shannon_entropy(gray)` respectively,
carried abstractly. -/
structure SrcImage where
  format : Option String
  mode : String
  width : Nat
  height : Nat
  info : List (String × InfoVal)
  exifRaw : Option (List (String × List (String × MetaVal)))
  gray : GrayGrid
  noiseStd : ℚ
  entropyRaw : ℚ

/-- `meta["format"] = img.format` (`None` when PIL has no format tag). -/
def fmtVal : Option String → MetaVal
  | Option.some s => .str s
  | Option.none => .pynone

/-- One `img.info` binding as stored in `pil_info`: byte payloads are
replaced by a `{type: bytes, length: N}` placeholder mapping. -/
def infoEntry : String × InfoVal → String × MetaVal
  | (k, .bytes n) => (k, .dict [("type", .str "bytes"), ("length", .int (n : Int))])
  | (k, .val v) => (k, v)

/-- The `pil_info` bindings. -/
def pilInfoEntries (img : SrcImage) : List (String × MetaVal) :=
  img.info.map infoEntry

/-- `img.info.get("icc_profile")`: length of the ICC payload when present
and non-empty (`if icc:` — empty bytes are falsy). -/
def iccLen (img : SrcImage) : Option Nat :=
  match img.info.find? fun p => p.1 == "icc_profile" with
  | Option.some (_, .bytes n) => if n = 0 then Option.none else Option.some n
  | _ => Option.none

/-- The readable EXIF groups: IFD groups with no readable entries are
dropped; a failed parse yields no groups at all. -/
def exifData (img : SrcImage) : List (String × MetaVal) :=
  match img.exifRaw with
  | Option.none => []
  | Option.some ifds =>
      ifds.filterMap fun p =>
        if p.2.isEmpty then Option.none else Option.some (p.1, MetaVal.dict p.2)

/-- `extract_metadata`: format/mode/size always, then `pil_info` when the
info mapping is non-empty, `icc_profile_length` when an ICC payload is
present, and `exif` when at least one readable EXIF group survived. -/
def extract_metadata (img : SrcImage) : MetaVal :=
  .dict (
    [("format", fmtVal img.format),
     ("mode", .str img.mode),
     ("size", .dict [("width", .int (img.width : Int)),
                     ("height", .int (img.height : Int))])]
    ++ (if (pilInfoEntries img).isEmpty then []
        else [("pil_info", .dict (pilInfoEntries img))])
    ++ (match iccLen img with
        | Option.some n => [("icc_profile_length", .int (n : Int))]
        | Option.none => [])
    ++ (if (exifData img).isEmpty then []
        else [("exif", .dict (exifData img))]))

/-- `np.clip(x, 0.0, 1.0)`. -/
def clip01 (x : ℚ) : ℚ := min (max x 0) 1

/-- The column boundaries `range(8, n, 8)` (as the filtered enumeration
of multiples of 8 below `n`, in increasing order). -/
def boundaries (n : Nat) : List Nat :=
  (List.range n).filter fun c => decide (8 ≤ c) && decide (c % 8 = 0)

/-- `np.mean(np.abs(gray[:, c] - gray[:, c - 1]))`. -/
def colEdgeMean (g : GrayGrid) (c : Nat) : ℚ :=
  (((List.range g.H).map fun r => |g.px r c - g.px r (c - 1)|).sum) / (g.H : ℚ)

/-- `np.mean(np.abs(gray[r, :] - gray[r - 1, :]))`. -/
def rowEdgeMean (g : GrayGrid) (r : Nat) : ℚ :=
  (((List.range g.W).map fun c => |g.px r c - g.px (r - 1) c|).sum) / (g.W : ℚ)

/-- `compute_blockiness`: mean absolute difference across 8×8 block
boundaries; `0.0` for grids under 16 pixels in either dimension. -/
def compute_blockiness (g : GrayGrid) : ℚ :=
  if g.H < 16 ∨ g.W < 16 then 0
  else
    let v_edges := (boundaries g.W).map (colEdgeMean g)
    let h_edges := (boundaries g.H).map (rowEdgeMean g)
    let all_edges := v_edges ++ h_edges
    if all_edges.isEmpty then 0
    else clip01 (all_edges.sum / (all_edges.length : ℚ))

/-- `compute_noise`: the Laplacian-response standard deviation scaled by
the empirical factor 2.0 and clamped. -/
def compute_noise (noiseStd : ℚ) : ℚ := clip01 (noiseStd * 2)

/-- `compute_entropy`: Shannon entropy divided by 8 and clamped. -/
def compute_entropy (entropyRaw : ℚ) : ℚ := clip01 (entropyRaw / 8)

/-- The three metrics of one analysis. -/
structure MetricSet where
  blockiness : ℚ
  noise_estimate : ℚ
  hist_entropy : ℚ

/-- The analysis result record. -/
structure AnalysisResult where
  score : ℚ
  label : String
  reasons : List String
  metadata : MetaVal
  metrics : MetricSet

/-- The score accumulation of `analyze_image` before the final clamp,
mirroring the sequential `score += ...` statements. -/
def pre_clamp_score (img : SrcImage) : ℚ :=
  let metadata := extract_metadata img
  let gen_reasons := detect_generator_reasons metadata
  let has_exif := truthyGet metadata "exif"
  let score0 : ℚ := 0
  let score1 := if gen_reasons.isEmpty then score0 else score0 + 0.6
  let score2 := if has_exif then score1 else score1 + 0.15
  let score3 := score2 +
    (0.35 - min (compute_entropy img.entropyRaw) 0.35) / 0.35 * 0.1
  let score4 := score3 +
    (0.20 - min (compute_noise img.noiseStd) 0.20) / 0.20 * 0.1
  score4 + (0.05 - min (compute_blockiness img.gray) 0.05) / 0.05 * 0.05

/-- The label thresholds applied to the final clamped score. -/
def labelOf (score : ℚ) : String :=
  if score ≥ 0.75 then "Likely AI-generated"
  else if score ≥ 0.45 then "Possibly AI-generated"
  else "Likely human-captured"

/-- `analyze_image`: metadata, metrics, reasons in their fixed order, the
clamped score and the label. -/
def analyze_image (img : SrcImage) : AnalysisResult :=
  let metadata := extract_metadata img
  let blockiness := compute_blockiness img.gray
  let noise := compute_noise img.noiseStd
  let entropy := compute_entropy img.entropyRaw
  let metrics : MetricSet :=
    { blockiness := blockiness, noise_estimate := noise, hist_entropy := entropy }
  let gen_reasons := detect_generator_reasons metadata
  let has_exif := truthyGet metadata "exif"
  let reasons :=
    gen_reasons
    ++ (if has_exif then [] else ["No EXIF metadata present"])
    ++ (if entropy < 0.35 then ["Low histogram entropy"] else [])
    ++ (if noise < 0.20 then ["Low high-frequency noise"] else [])
    ++ (if blockiness < 0.05 ∧ img.format ≠ Option.some "PNG"
        then ["Very low JPEG blockiness"] else [])
  let score := clip01 (pre_clamp_score img)
  { score := score
    label := labelOf score
    reasons := reasons
    metadata := metadata
    metrics := metrics }

/-- The decode failure surfaced by the core (`Image.open` raising on
bytes no codec accepts). -/
inductive InvalidImageError where
  | invalidImage : InvalidImageError

/-- `analyze`: the sole entry point, parametrised by the codec
(`Image.open` + `exif_transpose`), which either decodes the bytes or
fails; decode failure is the only error crossing the boundary. -/
def analyze (decode : List Nat → Option SrcImage) (data : List Nat) :
    Except InvalidImageError AnalysisResult :=
  match decode data with
  | Option.none => Except.error InvalidImageError.invalidImage
  | Option.some img => Except.ok (analyze_image img)

/-- A string occurs in a metadata tree: as a dict key, or as the
`str()` image of a leaf, at any nesting depth. -/
inductive OccursIn : String → MetaVal → Prop
  | str_leaf (s : String) : OccursIn s (.str s)
  | int_leaf (n : Int) : OccursIn (toString n) (.int n)
  | none_leaf : OccursIn "None" .pynone
  | dict_key {s : String} {v : MetaVal} {kvs : List (String × MetaVal)} :
      (s, v) ∈ kvs → OccursIn s (.dict kvs)
  | dict_val {s k : String} {v : MetaVal} {kvs : List (String × MetaVal)} :
      (k, v) ∈ kvs → OccursIn s v → OccursIn s (.dict kvs)
  | list_elt {s : String} {v : MetaVal} {xs : List MetaVal} :
      v ∈ xs → OccursIn s v → OccursIn s (.list xs)

/-- A 1×1 all-zero grid (blockiness trivially 0). -/
def tinyGray : GrayGrid := { H := 1, W := 1, px := fun _ _ => 0 }

/-- Concrete PNG image with no EXIF data, for witnesses. -/
def pngSample : SrcImage :=
  { format := Option.some "PNG", mode := "L", width := 1, height := 1,
    info := [], exifRaw := Option.none, gray := tinyGray,
    noiseStd := 0, entropyRaw := 0 }

/-- Concrete image whose `mode` string mentions a generator, for
witnesses. -/
def mjSample : SrcImage :=
  { format := Option.some "JPEG", mode := "Made With MidJourney", width := 1,
    height := 1, info := [], exifRaw := Option.none, gray := tinyGray,
    noiseStd := 0, entropyRaw := 0 }

/-- A codec that rejects every byte sequence. -/
def noDecode : List Nat → Option SrcImage := fun _ => Option.none

/-- A codec that decodes every byte sequence to a fixed image. -/
def constDecode (img : SrcImage) : List Nat → Option SrcImage :=
  fun _ => Option.some img

/-! ## Helper lemmas -/

/-- The clamp is bounded below by 0. -/
theorem clip01_nonneg (x : ℚ) : 0 ≤ clip01 x :=
  le_min (le_max_right x 0) zero_le_one

/-- The clamp is bounded above by 1. -/
theorem clip01_le_one (x : ℚ) : clip01 x ≤ 1 :=
  min_le_right _ 1

/-- Each linear ramp term of the score is nonnegative. -/
theorem ramp_nonneg (x c d : ℚ) (hc : 0 < c) (hd : 0 ≤ d) :
    0 ≤ (c - min x c) / c * d :=
  mul_nonneg (div_nonneg (sub_nonneg.mpr (min_le_right x c)) hc.le) hd

/-- The score field of the result is the clamped accumulated score. -/
theorem analyze_score_def (img : SrcImage) :
    (analyze_image img).score = clip01 (pre_clamp_score img) := rfl

/-- The label field is the thresholding applied to the score field. -/
theorem analyze_label_def (img : SrcImage) :
    (analyze_image img).label = labelOf (analyze_image img).score := rfl

/-- The reasons list of the result, as the appended conditional pieces
in their fixed order. -/
theorem analyze_reasons_def (img : SrcImage) :
    (analyze_image img).reasons =
      detect_generator_reasons (extract_metadata img)
      ++ (if truthyGet (extract_metadata img) "exif" then []
          else ["No EXIF metadata present"])
      ++ (if compute_entropy img.entropyRaw < 0.35
          then ["Low histogram entropy"] else [])
      ++ (if compute_noise img.noiseStd < 0.20
          then ["Low high-frequency noise"] else [])
      ++ (if compute_blockiness img.gray < 0.05 ∧ img.format ≠ Option.some "PNG"
          then ["Very low JPEG blockiness"] else []) := rfl

/-- The metrics field of the result. -/
theorem analyze_metrics_def (img : SrcImage) :
    (analyze_image img).metrics =
      { blockiness := compute_blockiness img.gray
        noise_estimate := compute_noise img.noiseStd
        hist_entropy := compute_entropy img.entropyRaw } := rfl

/-- The accumulated pre-clamp score equals the sum of the five
independent terms. -/
theorem pre_clamp_score_eq (img : SrcImage) :
    pre_clamp_score img =
      (if (detect_generator_reasons (extract_metadata img)).isEmpty
       then 0 else 0.6)
      + (if truthyGet (extract_metadata img) "exif" then 0 else 0.15)
      + (0.35 - min (compute_entropy img.entropyRaw) 0.35) / 0.35 * 0.1
      + (0.20 - min (compute_noise img.noiseStd) 0.20) / 0.20 * 0.1
      + (0.05 - min (compute_blockiness img.gray) 0.05) / 0.05 * 0.05 := by
  simp only [pre_clamp_score]
  split_ifs <;> ring

/-- The detection loop, with any accumulator, produces the accumulator
followed by the formatted matching keywords in table order. -/
theorem foldl_detect_eq (p : String → Bool) (l : List String)
    (acc : List String) :
    l.foldl (fun reasons kw =>
      if p kw then reasons ++ [genReason kw] else reasons) acc
      = acc ++ (l.filter p).map genReason := by
  induction l generalizing acc with
  | nil => simp
  | cons kw rest ih =>
      by_cases h : p kw = true <;>
        simp [List.foldl_cons, h, ih, List.filter_cons]

/-- `detect_generator_reasons` is the match-filtered keyword table,
formatted, in table order. -/
theorem detect_eq_filter_map (md : MetaVal) :
    detect_generator_reasons md =
      (GENERATOR_KEYWORDS.filter (kwMatches (collectTexts md))).map genReason := by
  simpa using foldl_detect_eq (kwMatches (collectTexts md)) GENERATOR_KEYWORDS []

/-- A key binding contributes its lowered key to the collected tokens. -/
theorem mem_key_collectKVs {k : String} {v : MetaVal}
    {kvs : List (String × MetaVal)} (h : (k, v) ∈ kvs) :
    strLower k ∈ collectKVs kvs := by
  induction kvs with
  | nil => cases h
  | cons kv rest ih =>
      rcases List.mem_cons.mp h with h1 | h1
      · subst h1; simp [collectKVs]
      · simp [collectKVs]
        exact Or.inr (Or.inr (ih h1))

/-- Tokens of a bound value are among the tokens of the mapping. -/
theorem mem_val_collectKVs {k : String} {v : MetaVal} {x : String}
    {kvs : List (String × MetaVal)} (h : (k, v) ∈ kvs)
    (hx : x ∈ collectTexts v) : x ∈ collectKVs kvs := by
  induction kvs with
  | nil => cases h
  | cons kv rest ih =>
      rcases List.mem_cons.mp h with h1 | h1
      · subst h1; simp [collectKVs]
        exact Or.inr (Or.inl hx)
      · simp [collectKVs]
        exact Or.inr (Or.inr (ih h1))

/-- Tokens of an element are among the tokens of the sequence. -/
theorem mem_elt_collectList {v : MetaVal} {x : String} {xs : List MetaVal}
    (h : v ∈ xs) (hx : x ∈ collectTexts v) : x ∈ collectList xs := by
  induction xs with
  | nil => cases h
  | cons y rest ih =>
      rcases List.mem_cons.mp h with h1 | h1
      · subst h1; simp [collectList]
        exact Or.inl hx
      · simp [collectList]
        exact Or.inr (ih h1)

/-- Any string occurring in a metadata tree appears, lowered, among the
collected tokens. -/
theorem occursIn_toLower_mem {s : String} {m : MetaVal}
    (h : OccursIn s m) : strLower s ∈ collectTexts m := by
  induction h with
  | str_leaf s => simp [collectTexts]
  | int_leaf n => simp [collectTexts]
  | none_leaf =>
      simp only [collectTexts]
      exact List.mem_singleton.mpr (by decide)
  | dict_key hmem => exact mem_key_collectKVs hmem
  | dict_val hmem hocc ih => exact mem_val_collectKVs hmem ih
  | list_elt hmem hocc ih => exact mem_elt_collectList hmem ih

/-- Looking up `"exif"` in the extracted metadata yields exactly the
non-empty readable EXIF groups, or nothing. -/
theorem dget_extract_exif (img : SrcImage) :
    dget (extract_metadata img) "exif" =
      if (exifData img).isEmpty then Option.none
      else Option.some (.dict (exifData img)) := by
  unfold extract_metadata dget
  cases h1 : (pilInfoEntries img).isEmpty <;>
    cases h2 : iccLen img <;>
      cases h3 : (exifData img).isEmpty <;>
        simp [List.find?, h1, h2, h3]

/-- The blockiness metric is either an early 0 or a clamped mean. -/
theorem compute_blockiness_cases (g : GrayGrid) :
    compute_blockiness g = 0 ∨ ∃ q, compute_blockiness g = clip01 q := by
  unfold compute_blockiness
  split
  · exact Or.inl rfl
  · dsimp only
    split
    · exact Or.inl rfl
    · exact Or.inr ⟨_, rfl⟩

/-- The blockiness metric lies in `[0,1]`. -/
theorem compute_blockiness_mem (g : GrayGrid) :
    0 ≤ compute_blockiness g ∧ compute_blockiness g ≤ 1 := by
  rcases compute_blockiness_cases g with h | ⟨q, h⟩ <;> rw [h]
  · norm_num
  · exact ⟨clip01_nonneg q, clip01_le_one q⟩

/-! ## Claims -/

/-- C7: for every input image the final score lies in `[0,1]`, and each
of the three metrics (blockiness, noise estimate, histogram entropy)
lies in `[0,1]`. -/
theorem claim7_score_and_metrics_in_unit_interval (img : SrcImage) :
    (0 ≤ (analyze_image img).score ∧ (analyze_image img).score ≤ 1)
    ∧ (0 ≤ (analyze_image img).metrics.blockiness
        ∧ (analyze_image img).metrics.blockiness ≤ 1)
    ∧ (0 ≤ (analyze_image img).metrics.noise_estimate
        ∧ (analyze_image img).metrics.noise_estimate ≤ 1)
    ∧ (0 ≤ (analyze_image img).metrics.hist_entropy
        ∧ (analyze_image img).metrics.hist_entropy ≤ 1) := by
  refine ⟨⟨clip01_nonneg _, clip01_le_one _⟩, ?_, ⟨clip01_nonneg _, clip01_le_one _⟩,
    ⟨clip01_nonneg _, clip01_le_one _⟩⟩
  have h : (analyze_image img).metrics.blockiness = compute_blockiness img.gray := rfl
  rw [h]
  exact compute_blockiness_mem img.gray

/-- C8: when the grayscale grid is under 16 pixels tall or wide, the
blockiness metric is exactly 0. -/
theorem claim8_small_grid_blockiness_zero (img : SrcImage)
    (h : img.gray.H < 16 ∨ img.gray.W < 16) :
    (analyze_image img).metrics.blockiness = 0 := by
  have h0 : (analyze_image img).metrics.blockiness = compute_blockiness img.gray := rfl
  rw [h0]
  simp [compute_blockiness, h]

/-- Witness for C8 on a concrete 1×1 image. -/
theorem claim8_witness :
    (pngSample.gray.H < 16 ∨ pngSample.gray.W < 16)
    ∧ (analyze_image pngSample).metrics.blockiness = 0 :=
  ⟨Or.inl (by decide),
   claim8_small_grid_blockiness_zero pngSample (Or.inl (by decide))⟩

/-- C2: the label is a function of the final clamped score alone, with
closed lower boundaries at 0.75 and 0.45; in particular 0.75 and 0.45
land in the upper categories while 0.749999 and 0.449999 fall below. -/
theorem claim2_label_thresholds (img : SrcImage) :
    (analyze_image img).label = labelOf (analyze_image img).score
    ∧ (∀ q : ℚ, 0.75 ≤ q → labelOf q = "Likely AI-generated")
    ∧ (∀ q : ℚ, 0.45 ≤ q → q < 0.75 → labelOf q = "Possibly AI-generated")
    ∧ (∀ q : ℚ, q < 0.45 → labelOf q = "Likely human-captured")
    ∧ labelOf 0.75 = "Likely AI-generated"
    ∧ labelOf 0.749999 = "Possibly AI-generated"
    ∧ labelOf 0.45 = "Possibly AI-generated"
    ∧ labelOf 0.449999 = "Likely human-captured" := by
  refine ⟨rfl, ?_, ?_, ?_, ?_, ?_, ?_, ?_⟩
  · intro q h
    simp [labelOf, ge_iff_le, h]
  · intro q h1 h2
    have hn : ¬ (q ≥ 0.75) := by exact not_le.mpr h2
    simp [labelOf, hn, ge_iff_le, h1]
  · intro q h
    have h1 : ¬ (q ≥ 0.75) := by rw [ge_iff_le, not_le]; linarith
    have h2 : ¬ (q ≥ 0.45) := by rw [ge_iff_le, not_le]; linarith
    simp [labelOf, h1, h2]
  · norm_num [labelOf]
  · norm_num [labelOf]
  · norm_num [labelOf]
  · norm_num [labelOf]

/-- Witness for C2 at concrete scores. -/
theorem claim2_witness :
    ((0.45 : ℚ) ≤ 0.5 ∧ (0.5 : ℚ) < 0.75)
    ∧ labelOf 0.5 = "Possibly AI-generated"
    ∧ (analyze_image pngSample).label = labelOf (analyze_image pngSample).score :=
  ⟨⟨by norm_num, by norm_num⟩,
   (claim2_label_thresholds pngSample).2.2.1 0.5 (by norm_num) (by norm_num),
   (claim2_label_thresholds pngSample).1⟩

/-- C6: the analysis is deterministic — on equal byte sequences, two
calls to `analyze` return equal results, in particular equal score,
label and reasons sequence. -/
theorem claim6_deterministic (decode : List Nat → Option SrcImage)
    (b1 b2 : List Nat) (h : b1 = b2) :
    analyze decode b1 = analyze decode b2
    ∧ ∀ r1 r2 : AnalysisResult, analyze decode b1 = Except.ok r1 →
        analyze decode b2 = Except.ok r2 →
        r1.score = r2.score ∧ r1.label = r2.label ∧ r1.reasons = r2.reasons := by
  subst h
  refine ⟨rfl, ?_⟩
  intro r1 r2 h1 h2
  rw [h1] at h2
  injection h2 with h3
  subst h3
  exact ⟨rfl, rfl, rfl⟩

/-- Witness for C6 on a concrete codec and byte sequence. -/
theorem claim6_witness :
    ([] : List Nat) = ([] : List Nat)
    ∧ analyze (constDecode pngSample) [] = analyze (constDecode pngSample) [] :=
  ⟨rfl, (claim6_deterministic (constDecode pngSample) [] [] rfl).1⟩

/-- C9: decode failure is the only error crossing the boundary —
`analyze` errors exactly when the codec rejects the bytes (and then with
`InvalidImageError`), succeeds with the analysis of the decoded image
otherwise, and an EXIF parse failure merely omits the `exif` key. -/
theorem claim9_error_policy (decode : List Nat → Option SrcImage)
    (b : List Nat) (img : SrcImage) (hfail : img.exifRaw = Option.none) :
    ((∃ e : InvalidImageError, analyze decode b = Except.error e)
        ↔ decode b = Option.none)
    ∧ (∀ i : SrcImage, decode b = Option.some i →
        analyze decode b = Except.ok (analyze_image i))
    ∧ dget (extract_metadata img) "exif" = Option.none := by
  refine ⟨?_, ?_, ?_⟩
  · constructor
    · rintro ⟨e, he⟩
      cases hd : decode b with
      | none => rfl
      | some i => rw [analyze, hd] at he; cases he
    · intro hd
      exact ⟨InvalidImageError.invalidImage, by rw [analyze, hd]⟩
  · intro i hd
    rw [analyze, hd]
  · have h3 : exifData img = [] := by simp [exifData, hfail]
    rw [dget_extract_exif]
    simp [h3]

/-- Witness for C9 on the rejecting codec and a concrete EXIF-less
image. -/
theorem claim9_witness :
    pngSample.exifRaw = Option.none
    ∧ (((∃ e : InvalidImageError, analyze noDecode [] = Except.error e)
          ↔ noDecode [] = Option.none)
       ∧ (∀ i : SrcImage, noDecode [] = Option.some i →
            analyze noDecode [] = Except.ok (analyze_image i))
       ∧ dget (extract_metadata pngSample) "exif" = Option.none) :=
  ⟨rfl, claim9_error_policy noDecode [] pngSample rfl⟩

/-- Membership in a conditional singleton. -/
theorem mem_ite_singleton {x s : String} {c : Prop} [Decidable c] :
    x ∈ (if c then [s] else []) ↔ c ∧ x = s := by
  split <;> simp [*]

/-- Membership in a negatively conditional singleton. -/
theorem mem_ite_nil_left {x s : String} {c : Prop} [Decidable c] :
    x ∈ (if c then [] else [s]) ↔ ¬c ∧ x = s := by
  split <;> simp [*]

/-- Every emitted generator reason is the formatting of a keyword of the
fixed table. -/
theorem mem_detect_imp {md : MetaVal} {x : String}
    (h : x ∈ detect_generator_reasons md) :
    ∃ kw, kw ∈ GENERATOR_KEYWORDS ∧ x = genReason kw := by
  rw [detect_eq_filter_map] at h
  rcases List.mem_map.mp h with ⟨kw, hkw, hx⟩
  exact ⟨kw, List.mem_of_mem_filter hkw, hx.symm⟩

/-- No generator reason string coincides with any of the four heuristic
reason strings. -/
theorem genReason_ne_heuristics :
    ∀ kw ∈ GENERATOR_KEYWORDS,
      genReason kw ≠ "No EXIF metadata present"
      ∧ genReason kw ≠ "Low histogram entropy"
      ∧ genReason kw ≠ "Low high-frequency noise"
      ∧ genReason kw ≠ "Very low JPEG blockiness" := by decide

/-- The Python-truthiness of the `exif` lookup is false exactly when the
EXIF sub-mapping is absent or empty. -/
theorem truthyGet_exif_iff (img : SrcImage) :
    truthyGet (extract_metadata img) "exif" = false ↔
      (dget (extract_metadata img) "exif" = Option.none
       ∨ dget (extract_metadata img) "exif" = Option.some (.dict [])) := by
  have hexif := dget_extract_exif img
  by_cases he : (exifData img).isEmpty
  · rw [if_pos he] at hexif
    rw [List.isEmpty_iff] at he
    simp [truthyGet, hexif]
  · rw [if_neg he] at hexif
    have hne : exifData img ≠ [] := by
      intro h0; exact he (by simp [h0])
    constructor
    · intro h0
      exfalso
      rw [truthyGet, hexif] at h0
      simp [pyTruthy] at h0
      exact hne (by simpa [List.isEmpty_iff] using h0)
    · rintro (h0 | h0) <;> rw [hexif] at h0
      · cases h0
      · exact absurd (by injection h0) (by simpa using hne)

/-- C1: the final score is the clamp to `[0,1]` of the sum of the five
independently evaluated terms of the specification. -/
theorem claim1_score_formula (img : SrcImage) :
    (analyze_image img).score =
      clip01 ((if (detect_generator_reasons (extract_metadata img)).isEmpty
               then 0 else 0.6)
        + (if truthyGet (extract_metadata img) "exif" then 0 else 0.15)
        + (0.35 - min (analyze_image img).metrics.hist_entropy 0.35) / 0.35 * 0.1
        + (0.20 - min (analyze_image img).metrics.noise_estimate 0.20) / 0.20 * 0.1
        + (0.05 - min (analyze_image img).metrics.blockiness 0.05) / 0.05 * 0.05) := by
  have h1 : (analyze_image img).metrics.hist_entropy
      = compute_entropy img.entropyRaw := rfl
  have h2 : (analyze_image img).metrics.noise_estimate
      = compute_noise img.noiseStd := rfl
  have h3 : (analyze_image img).metrics.blockiness
      = compute_blockiness img.gray := rfl
  rw [analyze_score_def, pre_clamp_score_eq, h1, h2, h3]

/-- C4: the reasons list is built in the fixed order with independent
conditions; the EXIF reason appears exactly when the EXIF sub-mapping is
absent or empty, and that state contributes exactly +0.15 to the
pre-clamp score. -/
theorem claim4_reasons_order (img : SrcImage) :
    ((analyze_image img).reasons =
      detect_generator_reasons (extract_metadata img)
      ++ (if truthyGet (extract_metadata img) "exif" then []
          else ["No EXIF metadata present"])
      ++ (if compute_entropy img.entropyRaw < 0.35
          then ["Low histogram entropy"] else [])
      ++ (if compute_noise img.noiseStd < 0.20
          then ["Low high-frequency noise"] else [])
      ++ (if compute_blockiness img.gray < 0.05 ∧ img.format ≠ Option.some "PNG"
          then ["Very low JPEG blockiness"] else []))
    ∧ ("No EXIF metadata present" ∈ (analyze_image img).reasons
        ↔ (dget (extract_metadata img) "exif" = Option.none
           ∨ dget (extract_metadata img) "exif" = Option.some (.dict [])))
    ∧ pre_clamp_score img =
        (if (detect_generator_reasons (extract_metadata img)).isEmpty
         then 0 else 0.6)
        + (if truthyGet (extract_metadata img) "exif" then 0 else 0.15)
        + (0.35 - min (compute_entropy img.entropyRaw) 0.35) / 0.35 * 0.1
        + (0.20 - min (compute_noise img.noiseStd) 0.20) / 0.20 * 0.1
        + (0.05 - min (compute_blockiness img.gray) 0.05) / 0.05 * 0.05 := by
  refine ⟨analyze_reasons_def img, ?_, pre_clamp_score_eq img⟩
  rw [← truthyGet_exif_iff img, analyze_reasons_def]
  simp only [List.mem_append, mem_ite_nil_left, mem_ite_singleton]
  constructor
  · rintro ((((h | h) | h) | h) | h)
    · exfalso
      rcases mem_detect_imp h with ⟨kw, hkw, hx⟩
      exact (genReason_ne_heuristics kw hkw).1 hx.symm
    · simpa using h.1
    · exact absurd h.2 (by decide)
    · exact absurd h.2 (by decide)
    · exact absurd h.2 (by decide)
  · intro h
    exact Or.inl (Or.inl (Or.inl (Or.inr ⟨by simp [h], trivial⟩)))

/-- C5: on a PNG with blockiness below 0.05 the blockiness reason string
is suppressed, while the blockiness score term is still present in the
sum and strictly positive. -/
theorem claim5_png_blockiness_asymmetry (img : SrcImage)
    (hfmt : img.format = Option.some "PNG")
    (hb : compute_blockiness img.gray < 0.05) :
    "Very low JPEG blockiness" ∉ (analyze_image img).reasons
    ∧ pre_clamp_score img =
        ((if (detect_generator_reasons (extract_metadata img)).isEmpty
          then 0 else 0.6)
         + (if truthyGet (extract_metadata img) "exif" then 0 else 0.15)
         + (0.35 - min (compute_entropy img.entropyRaw) 0.35) / 0.35 * 0.1
         + (0.20 - min (compute_noise img.noiseStd) 0.20) / 0.20 * 0.1)
        + (0.05 - min (compute_blockiness img.gray) 0.05) / 0.05 * 0.05
    ∧ 0 < (0.05 - min (compute_blockiness img.gray) 0.05) / 0.05 * 0.05 := by
  refine ⟨?_, pre_clamp_score_eq img, ?_⟩
  · rw [analyze_reasons_def]
    simp only [List.mem_append, mem_ite_nil_left, mem_ite_singleton]
    rintro ((((h | h) | h) | h) | h)
    · rcases mem_detect_imp h with ⟨kw, hkw, hx⟩
      exact (genReason_ne_heuristics kw hkw).2.2.2 hx.symm
    · exact absurd h.2 (by decide)
    · exact absurd h.2 (by decide)
    · exact absurd h.2 (by decide)
    · exact h.1.2 hfmt
  · rw [min_eq_left hb.le]
    have h0 : 0 < (0.05 : ℚ) - compute_blockiness img.gray := by linarith
    positivity

/-- Witness for C5 on a concrete 1×1 PNG. -/
theorem claim5_witness :
    pngSample.format = Option.some "PNG"
    ∧ compute_blockiness pngSample.gray < 0.05
    ∧ "Very low JPEG blockiness" ∉ (analyze_image pngSample).reasons :=
  ⟨rfl, by norm_num [compute_blockiness, pngSample, tinyGray],
   (claim5_png_blockiness_asymmetry pngSample rfl
     (by norm_num [compute_blockiness, pngSample, tinyGray])).1⟩

/-- C3: the detector emits, in fixed table order, one reason per matched
keyword; metadata containing "midjourney" (case-insensitively, at any
depth, in a key or a value) yields the midjourney reason and a pre-clamp
score of at least 0.60. -/
theorem claim3_generator_detection (img : SrcImage) (s : String)
    (hocc : OccursIn s (extract_metadata img))
    (hsub : containsSubstr "midjourney" (strLower s) = true) :
    detect_generator_reasons (extract_metadata img)
      = (GENERATOR_KEYWORDS.filter
          (kwMatches (collectTexts (extract_metadata img)))).map genReason
    ∧ "Generator tag detected: midjourney" ∈ (analyze_image img).reasons
    ∧ 0.6 ≤ pre_clamp_score img := by
  have hmem : strLower s ∈ collectTexts (extract_metadata img) :=
    occursIn_toLower_mem hocc
  have hmatch : kwMatches (collectTexts (extract_metadata img)) "midjourney" = true :=
    List.any_eq_true.mpr ⟨strLower s, hmem, hsub⟩
  have hdet : "Generator tag detected: midjourney"
      ∈ detect_generator_reasons (extract_metadata img) := by
    rw [detect_eq_filter_map]
    exact List.mem_map.mpr ⟨"midjourney",
      List.mem_filter.mpr ⟨by decide, hmatch⟩, rfl⟩
  refine ⟨detect_eq_filter_map _, ?_, ?_⟩
  · rw [analyze_reasons_def]
    exact List.mem_append_left _ (List.mem_append_left _
      (List.mem_append_left _ (List.mem_append_left _ hdet)))
  · rw [pre_clamp_score_eq]
    have hne : ¬ (detect_generator_reasons (extract_metadata img)).isEmpty = true := by
      intro h0
      rw [List.isEmpty_iff] at h0
      rw [h0] at hdet
      cases hdet
    rw [if_neg hne]
    have e1 : 0 ≤ (0.35 - min (compute_entropy img.entropyRaw) 0.35) / 0.35 * 0.1 :=
      ramp_nonneg _ _ _ (by norm_num) (by norm_num)
    have e2 : 0 ≤ (0.20 - min (compute_noise img.noiseStd) 0.20) / 0.20 * 0.1 :=
      ramp_nonneg _ _ _ (by norm_num) (by norm_num)
    have e3 : 0 ≤ (0.05 - min (compute_blockiness img.gray) 0.05) / 0.05 * 0.05 :=
      ramp_nonneg _ _ _ (by norm_num) (by norm_num)
    have e4 : 0 ≤ (if truthyGet (extract_metadata img) "exif" then (0:ℚ) else 0.15) := by
      split <;> norm_num
    linarith

/-- Witness for C3 on a concrete image whose mode string mentions
MidJourney in mixed case. -/
theorem claim3_witness :
    OccursIn "Made With MidJourney" (extract_metadata mjSample)
    ∧ containsSubstr "midjourney" (strLower "Made With MidJourney") = true
    ∧ "Generator tag detected: midjourney" ∈ (analyze_image mjSample).reasons := by
  have hocc : OccursIn "Made With MidJourney" (extract_metadata mjSample) := by
    apply OccursIn.dict_val (k := "mode") (v := MetaVal.str "Made With MidJourney")
    · simp [extract_metadata, mjSample, pilInfoEntries, iccLen, exifData, List.find?]
    · exact OccursIn.str_leaf _
  refine ⟨hocc, by decide, ?_⟩
  exact (claim3_generator_detection mjSample "Made With MidJourney" hocc (by decide)).2.1

/-- C10: the reasons list never contains duplicate strings. -/
theorem claim10_reasons_nodup (img : SrcImage) :
    (analyze_image img).reasons.Nodup := by
  rw [analyze_reasons_def, List.append_assoc, List.append_assoc, List.append_assoc]
  refine List.nodup_append.mpr ⟨?_, ?_, ?_⟩
  · rw [detect_eq_filter_map]
    exact List.Nodup.sublist
      (List.Sublist.map genReason (List.filter_sublist GENERATOR_KEYWORDS))
      (by decide)
  · split_ifs <;> decide
  · intro x hx hx'
    rcases mem_detect_imp hx with ⟨kw, hkw, rfl⟩
    simp only [List.mem_append, mem_ite_nil_left, mem_ite_singleton] at hx'
    rcases hx' with ⟨_, h⟩ | ⟨_, h⟩ | ⟨_, h⟩ | ⟨_, h⟩
    · exact (genReason_ne_heuristics kw hkw).1 h
    · exact (genReason_ne_heuristics kw hkw).2.1 h
    · exact (genReason_ne_heuristics kw hkw).2.2.1 h
    · exact (genReason_ne_heuristics kw hkw).2.2.2 h

end DeepfakeProto
